import Mathlib

/-!
Verification development for the WhereCanIBee spatial POI cache.

The definitions below are a shallow embedding of the backend source:
`services/cacheService.js` (POICacheService), `server.js` (POST /api/pois
handler), `services/sseService.js` (SSEService) and
`services/providers/overpassProvider.js` (getPOIs).  JavaScript numbers that
appear in the relevant code paths are integer-valued, so they are modelled by
`Int` plus an explicit NaN constructor; SQLite rows are modelled as Lean
structures and tables as lists of rows; operations of the external SpatiaLite
engine (ST_Intersects / ST_Union / ST_Difference / ST_Within) are modelled as
oracle functions supplied as parameters, returning `Except` to model SQL
errors thrown by better-sqlite3.
-/

/-- A JavaScript number as it occurs on the modelled code paths: either an
integer value (whose `String(n)` rendering is exact) or NaN.  `NaN` also
stands for `undefined` where a numeric slot can hold it; both are falsy and
both render into WKT as a non-numeric token. -/
inductive JsNum where
  | int (n : Int)
  | nan
deriving DecidableEq, Repr

/-- JavaScript truthiness of a number: 0 and NaN are falsy. -/
def JsNum.truthy : JsNum → Bool
  | .int n => n != 0
  | .nan => false

/-- JavaScript template-literal rendering of a number. -/
def JsNum.render : JsNum → String
  | .int n => toString n
  | .nan => "NaN"

/-- One [lng, lat] coordinate pair of a GeoJSON ring. -/
structure Coord where
  lng : JsNum
  lat : JsNum
deriving DecidableEq, Repr

/-- The wire polygon: a GeoJSON FeatureCollection whose single feature holds a
single-ring polygon.  Every access in the source is
`polygon.features[0].geometry.coordinates[0]`, which is the `ring` field. -/
structure Geo where
  ring : List Coord
deriving DecidableEq, Repr

/-- `POICacheService.polygonToWKT` (cacheService.js:167-171): renders the ring
as `POLYGON((lng lat, lng lat, ...))`. -/
def polygonToWKT (polygon : Geo) : String :=
  let coords := polygon.ring
  let wktCoords := String.intercalate ", "
    (coords.map (fun c => c.lng.render ++ " " ++ c.lat.render))
  "POLYGON((" ++ wktCoords ++ "))"

/-- Does the character list start with the given pattern? -/
def charsStartWith : List Char → List Char → Bool
  | _, [] => true
  | [], _ :: _ => false
  | a :: as, b :: bs => a = b && charsStartWith as bs

/-- Fuel-driven worker for `jsSplitChars`: splits at every non-overlapping,
leftmost occurrence of the separator, like JavaScript `String.split`. -/
def jsSplitCharsAux (sep : List Char) : Nat → List Char → List Char → List (List Char)
  | 0, acc, xs => [acc.reverse ++ xs]
  | _ + 1, acc, [] => [acc.reverse]
  | n + 1, acc, x :: xs =>
    if charsStartWith (x :: xs) sep then
      acc.reverse :: jsSplitCharsAux sep n [] (List.drop sep.length (x :: xs))
    else
      jsSplitCharsAux sep n (x :: acc) xs

/-- JavaScript `String.split(sep)` on character lists (for a non-empty
separator). -/
def jsSplitChars (sep xs : List Char) : List (List Char) :=
  jsSplitCharsAux sep (xs.length + 1) [] xs

/-- JavaScript `String.split(sep)`. -/
def jsSplit (s sep : String) : List String :=
  (jsSplitChars sep.data s.data).map String.mk

/-- JavaScript `String.trim()` for the whitespace that occurs in WKT text:
leading and trailing spaces are removed. -/
def jsTrim (s : String) : String :=
  ⟨((s.data.dropWhile (· = ' ')).reverse.dropWhile (· = ' ')).reverse⟩

/-- Parses a non-empty list of decimal digits. -/
def digitsToNat? : List Char → Option Nat
  | [] => none
  | cs =>
    cs.foldl (fun acc c =>
      match acc with
      | none => none
      | some n => if c.isDigit then some (n * 10 + (c.toNat - 48)) else none)
      (some 0)

/-- JavaScript `Number(s)` restricted to the inputs that arise from WKT
coordinate text: the empty/whitespace string converts to 0, an optionally
signed integer numeral converts to its value, anything else (for instance a
leftover parenthesis or a decimal point) is NaN in this model. -/
def jsNumber (s : String) : JsNum :=
  let t := (jsTrim s).data
  match t with
  | [] => .int 0
  | '-' :: rest =>
    match digitsToNat? rest with
    | some n => .int (-(n : Int))
    | none => .nan
  | _ =>
    match digitsToNat? t with
    | some n => .int (n : Int)
    | none => .nan

/-- Joins string pieces with the given separator between them. -/
def joinWithSep (sep : String) : List String → String
  | [] => ""
  | [x] => x
  | x :: y :: xs => x ++ sep ++ joinWithSep sep (y :: xs)

/-- The lazy regex capture `/POLYGON\(\((.*?)\)\)/` of `wktToGeoJSON`: the text
between the first occurrence of `POLYGON((` and the earliest following `))`,
or none when the pattern does not match. -/
def polygonCapture (wkt : String) : Option String :=
  match jsSplitChars "POLYGON((".data wkt.data with
  | [] => none
  | [_] => none
  | _ :: rest =>
    let afterText := joinWithSep "POLYGON((" (rest.map String.mk)
    let caps := jsSplit afterText "))"
    if caps.length ≥ 2 then caps.head? else none

/-- One parsed coordinate of `wktToGeoJSON`: `coord.trim().split(" ").map(Number)`
destructured as `[lng, lat]`; a missing second component is `undefined`,
modelled like NaN. -/
def parseWktCoord (coord : String) : Coord :=
  let parts := jsSplit (jsTrim coord) " "
  let lng := match parts.head? with
    | some s => jsNumber s
    | none => JsNum.nan
  let lat := match parts[1]? with
    | some s => jsNumber s
    | none => JsNum.nan
  ⟨lng, lat⟩

/-- `POICacheService.wktToGeoJSON` (cacheService.js:179-200): returns null for
empty input or `GEOMETRYCOLLECTION EMPTY`, returns null when the POLYGON regex
does not match (for instance on LINESTRING output), otherwise rebuilds a
FeatureCollection from the captured coordinate list. -/
def wktToGeoJSON (wkt : String) : Option Geo :=
  if wkt = "" ∨ wkt = "GEOMETRYCOLLECTION EMPTY" then none
  else
    match polygonCapture wkt with
    | none => none
    | some inner =>
      some ⟨(jsSplit inner ",").map parseWktCoord⟩

example : polygonToWKT ⟨[⟨.int 0, .int 0⟩, ⟨.int 1, .int 0⟩, ⟨.int 1, .int 1⟩, ⟨.int 0, .int 0⟩]⟩ =
    "POLYGON((0 0, 1 0, 1 1, 0 0))" := by decide

example : wktToGeoJSON "POLYGON((0 0, 1 0, 1 1, 0 0))" =
    some ⟨[⟨.int 0, .int 0⟩, ⟨.int 1, .int 0⟩, ⟨.int 1, .int 1⟩, ⟨.int 0, .int 0⟩]⟩ := by decide

example : wktToGeoJSON "LINESTRING(0 0,1 1)" = none := by decide

example : wktToGeoJSON "GEOMETRYCOLLECTION EMPTY" = none := by decide

/-- A POI object as produced by the provider layer and passed to
`cachePOIs(polygon, category, pois)`: `id` is the provider-qualified id that
becomes the row's `osm_id`; `tags` stands for the `JSON.stringify(poi.tags)`
text. -/
structure POI where
  id : String
  name : String
  category : String
  lat : JsNum
  lng : JsNum
  tags : String
deriving DecidableEq, Repr

/-- A row of the `poi_cache` table (schema of `_migrateSpatialTables`,
cacheService.js:216-227, identical to setup_database.sql): `id INTEGER PRIMARY
KEY` is the rowid; `geom` is the `SetSRID(MakePoint(lng, lat), 4326)` point,
kept as its two coordinates. -/
structure PoiRow where
  id : Nat
  osm_id : String
  name : String
  category : String
  lat : JsNum
  lng : JsNum
  tags : String
  geomLng : JsNum
  geomLat : JsNum
  updated_at : Nat
deriving DecidableEq, Repr

/-- A row of the migrated `cache_coverage` table (cacheService.js:238-263):
`polygon_geom` is the geometry built by `ST_GeomFromText(wkt, 4326)`, kept as
its WKT text. -/
structure CovRow where
  id : Nat
  polygon_geom : String
  category : String
  poi_count : Nat
  cached_at : Nat
deriving DecidableEq, Repr

/-- The persistent SQLite state: both tables plus their rowid counters. -/
structure Store where
  pois : List PoiRow
  coverage : List CovRow
  nextPoiId : Nat
  nextCovId : Nat
deriving DecidableEq, Repr

/-- The empty database right after table creation. -/
def emptyStore : Store := ⟨[], [], 0, 0⟩

/-- One statement executed inside the `cachePOIs` transaction. -/
inductive TxnOp where
  | insertPoi (p : POI)
  | insertCoverage (wkt : String) (category : String) (count : Nat)
deriving DecidableEq, Repr

/-- Executes one prepared statement of `cachePOIs` (cacheService.js:130-140).

`insertPoi` is `INSERT OR REPLACE INTO poi_cache (osm_id, name, category, lat,
lng, tags, geom, updated_at) VALUES (...)`.  The operative `poi_cache` schema
(both `_migrateSpatialTables` and setup_database.sql) declares no UNIQUE
constraint on `osm_id` and the statement does not supply `id`, so no
uniqueness conflict can ever arise and the OR REPLACE clause is inert: in
SQLite the statement appends a fresh row with a new rowid.

`insertCoverage` is `INSERT INTO cache_coverage (polygon_geom, category,
poi_count, cached_at) VALUES (ST_GeomFromText(?, 4326), ?, ?,
CURRENT_TIMESTAMP)`: a plain append. -/
def applyOp (now : Nat) (db : Store) : TxnOp → Store
  | .insertPoi p =>
    { db with
      pois := db.pois ++
        [⟨db.nextPoiId, p.id, p.name, p.category, p.lat, p.lng, p.tags, p.lng, p.lat, now⟩],
      nextPoiId := db.nextPoiId + 1 }
  | .insertCoverage wkt cat cnt =>
    { db with
      coverage := db.coverage ++ [⟨db.nextCovId, wkt, cat, cnt, now⟩],
      nextCovId := db.nextCovId + 1 }

/-- The statement list of the `cachePOIs` transaction (cacheService.js:142-160):
one POI insert per element of `pois`, then the coverage insert for the queried
polygon. -/
def cachePOIsOps (polygon : Geo) (category : String) (pois : List POI) : List TxnOp :=
  pois.map TxnOp.insertPoi ++ [TxnOp.insertCoverage (polygonToWKT polygon) category pois.length]

/-- `POICacheService.cachePOIs` (cacheService.js:129-163): runs the transaction.
better-sqlite3 transactions are synchronous and atomic, so the committed state
is the fold of all statements over the pre-state. -/
def cachePOIs (db : Store) (polygon : Geo) (category : String) (pois : List POI)
    (now : Nat) : Store :=
  (cachePOIsOps polygon category pois).foldl (applyOp now) db

/-- The states observable outside the `cachePOIs` transaction: better-sqlite3
wraps the statement list in BEGIN/COMMIT, so other readers see either the
pre-state or the fully committed post-state, never a prefix of the
statement list. -/
def txnObservable (db : Store) (ops : List TxnOp) (now : Nat) : List Store :=
  [db, ops.foldl (applyOp now) db]

/-- The static category configuration `CATEGORIES` of poiService.js. -/
def CATEGORIES : String → Option (List String)
  | "restaurants" => some ["restaurant", "cafe", "bar", "fast_food", "pub"]
  | "recreation" => some ["park", "playground"]
  | _ => none

/-- The freshness window of the SQL filters: 30 days, in seconds. -/
def FRESH_WINDOW : Nat := 30 * 24 * 60 * 60

/-- The SQL freshness predicate `datetime(ts) > datetime('now', '-30 days')`,
over timestamps in seconds. -/
def freshAt (ts now : Nat) : Bool := now < ts + FRESH_WINDOW

/-- `POICacheService.getCachedPOIs` (cacheService.js:41-57).  The polygon is
converted to WKT, `CATEGORIES[category]` missing throws `Unknown category`,
and otherwise the SELECT filters `poi_cache` rows by category membership, the
`ST_Within(geom, ST_GeomFromText(wkt, 4326))` predicate (supplied as the
`within` oracle of the external spatial engine), and freshness of
`updated_at`. -/
def getCachedPOIs (within : JsNum → JsNum → String → Bool) (now : Nat) (db : Store)
    (polygon : Geo) (category : String) : Except String (List PoiRow) :=
  let wkt := polygonToWKT polygon
  match CATEGORIES category with
  | none => .error ("Unknown category: " ++ category)
  | some amenityTypes =>
    .ok (db.pois.filter (fun r =>
      amenityTypes.contains r.category && within r.geomLng r.geomLat wkt &&
        freshAt r.updated_at now))

/-- The external SpatiaLite operations invoked by `getUncachedArea`, as
oracles.  `queryCoverage category wkt` is the SELECT of fresh, intersecting
`cache_coverage` geometries (cacheService.js:71-80); `unionGeoms` is the
temporary-table `ST_AsText(ST_Union(...))` (lines 93-106), whose SQL result
may be NULL; `difference` is `ST_AsText(ST_Difference(ST_GeomFromText(p),
ST_GeomFromText(u)))` (lines 109-118) with a possibly-NULL second operand and
possibly-NULL result.  An `Except.error` models better-sqlite3 throwing. -/
structure SpatialEngine where
  spatialiteEnabled : Bool
  queryCoverage : String → String → Except String (List String)
  unionGeoms : List String → Except String (Option String)
  difference : String → Option String → Except String (Option String)

/-- The body of the `try` block of `getUncachedArea` (cacheService.js:86-118)
up to the difference query: with exactly one overlapping geometry that
geometry is used directly, otherwise the geometries are unioned through the
temporary table; the result feeds the `ST_Difference` query. -/
def tryUnionDiff (eng : SpatialEngine) (polygonWKT : String)
    (overlapping : List String) : Except String (Option String) :=
  match overlapping with
  | [g] => eng.difference polygonWKT (some g)
  | gs =>
    match eng.unionGeoms gs with
    | .error e => .error e
    | .ok u => eng.difference polygonWKT u

/-- `POICacheService.getUncachedArea` (cacheService.js:63-127).  Without
SpatiaLite the whole polygon is returned; the overlapping-coverage SELECT runs
before the `try` block, so its failure propagates (`Except.error`); an empty
overlap list returns the whole polygon; a failure inside the `try` block is
caught and returns the whole polygon; otherwise the difference WKT is checked
for JavaScript truthiness and the empty-collection sentinel and parsed with
`wktToGeoJSON`. -/
def getUncachedArea (eng : SpatialEngine) (polygon : Geo) (category : String) :
    Except String (Option Geo) :=
  if eng.spatialiteEnabled = false then .ok (some polygon)
  else
    let polygonWKT := polygonToWKT polygon
    match eng.queryCoverage category polygonWKT with
    | .error e => .error e
    | .ok overlapping =>
      if overlapping.isEmpty then .ok (some polygon)
      else
        match tryUnionDiff eng polygonWKT overlapping with
        | .error _ => .ok (some polygon)
        | .ok uncached =>
          .ok (match uncached with
            | some s =>
              if s ≠ "" ∧ s ≠ "GEOMETRYCOLLECTION EMPTY" then wktToGeoJSON s else none
            | none => none)

/-- The hash algorithms used by the repository. -/
inductive HashAlg where
  | md5
  | sha256
deriving DecidableEq, Repr

/-- A digest value `crypto.createHash(alg).update(input).digest("hex")`,
represented by the algorithm and the exact preimage.  The hex output is a
deterministic function of this pair, and MD5 and SHA-256 outputs have
different lengths (32 versus 64 hex characters), so two digests with
different algorithms are always different hex strings. -/
structure Digest where
  alg : HashAlg
  input : String
deriving DecidableEq, Repr

/-- `JSON.stringify(polygon)` for the wire polygon object.  Both hash sites
(`hashPolygon` and `broadcastPOIUpdates`) stringify the same polygon object,
so they receive this same text. -/
def jsonStringifyPolygon (g : Geo) : String :=
  "\x7b\"type\":\"FeatureCollection\",\"features\":[\x7b\"type\":\"Feature\",\"geometry\":\x7b\"type\":\"Polygon\",\"coordinates\":[[" ++
    String.intercalate ","
      (g.ring.map (fun c => "[" ++ c.lng.render ++ "," ++ c.lat.render ++ "]")) ++
    "]]\x7d\x7d]\x7d"

/-- `POICacheService.hashPolygon` (cacheService.js:174-177): MD5 over
`JSON.stringify(polygon) + category`. -/
def hashPolygon (polygon : Geo) (category : String) : Digest :=
  ⟨.md5, jsonStringifyPolygon polygon ++ category⟩

/-- The event object built by `SSEService.broadcastPOIUpdates`
(sseService.js:27-37): its `polygon_hash` is SHA-256 over
`JSON.stringify(polygon)` alone. -/
structure UpdateData where
  type : String
  category : String
  pois : List POI
  count : Nat
  timestamp : Nat
  polygon_hash : Digest
deriving DecidableEq, Repr

/-- Builds the `updateData` value of `broadcastPOIUpdates` for a publish at
time `now`. -/
def mkUpdateData (category : String) (newPOIs : List POI) (polygon : Geo)
    (now : Nat) : UpdateData :=
  ⟨"poi_update", category, newPOIs, newPOIs.length, now,
    ⟨.sha256, jsonStringifyPolygon polygon⟩⟩

/-- The SSE connection registry `this.connections`: a Map from category to a
Map from client id to the response handle (modelled by a numeric handle). -/
abbrev Registry := List (String × List (String × Nat))

/-- JavaScript `Map.get` on the registry. -/
def regLookup (reg : Registry) (category : String) : Option (List (String × Nat)) :=
  (reg.find? (fun e => e.1 = category)).map (fun e => e.2)

/-- Replaces the client map stored under an existing category key. -/
def regSet (reg : Registry) (category : String) (m : List (String × Nat)) : Registry :=
  reg.map (fun e => if e.1 = category then (category, m) else e)

/-- JavaScript `Map.set(clientId, res)` on a client map: replaces an existing
entry or appends a new one. -/
def clientSet (m : List (String × Nat)) (clientId : String) (res : Nat) :
    List (String × Nat) :=
  if m.any (fun e => e.1 = clientId) then
    m.map (fun e => if e.1 = clientId then (clientId, res) else e)
  else m ++ [(clientId, res)]

/-- `SSEService.addConnection` (sseService.js:6-13): creates the category's
client map when absent, then stores the client under its generated id (the id
is a parameter here; the source generates it from the clock and a random
number). -/
def addConnection (reg : Registry) (category clientId : String) (res : Nat) : Registry :=
  match regLookup reg category with
  | none => reg ++ [(category, [(clientId, res)])]
  | some m => regSet reg category (clientSet m clientId res)

/-- `SSEService.removeConnection` (sseService.js:15-22): deletes the client
from the category's map and deletes the category key when its map becomes
empty. -/
def removeConnection (reg : Registry) (category clientId : String) : Registry :=
  match regLookup reg category with
  | none => reg
  | some m =>
    let m' := m.filter (fun e => e.1 ≠ clientId)
    if m'.isEmpty then reg.filter (fun e => e.1 ≠ category)
    else regSet reg category m'

/-- `SSEService.broadcastPOIUpdates` (sseService.js:24-45), registry effect:
returns unchanged when the category has no entry or there are no new POIs;
otherwise iterates the category's clients in order, and every client whose
`res.write` throws (the `writeOk` oracle is false on its handle) is torn down
via `removeConnection`.  `Map.forEach` visits the entries present at call
time; only the failing entry itself is deleted during the walk, so the fold
over the snapshot list is the iteration order of the source. -/
def broadcastPOIUpdates (writeOk : Nat → Bool) (reg : Registry) (category : String)
    (newPOIs : List POI) : Registry :=
  match regLookup reg category with
  | none => reg
  | some clients =>
    if newPOIs.length = 0 then reg
    else
      clients.foldl (fun r c =>
        if writeOk c.2 then r else removeConnection r category c.1) reg

/-- The OSM tag fields that `getPOIs` reads from an element. -/
structure OsmTags where
  name : Option String
  amenity : Option String
deriving DecidableEq, Repr

/-- A raw Overpass element as consumed by `transformElementToPOI`
(overpassProvider.js:36-45).  `none` in a numeric slot is JavaScript
`undefined` (field absent); `centerLat`/`centerLon` are the values of
`element.center?.lat` / `element.center?.lon` (undefined when `center` is
absent or lacks the field). -/
structure OverpassElement where
  id : Nat
  tags : Option OsmTags
  lat : Option JsNum
  lon : Option JsNum
  centerLat : Option JsNum
  centerLon : Option JsNum
deriving DecidableEq, Repr

/-- JavaScript `a || b` on a possibly-undefined number: falls through to `b`
when `a` is undefined, 0 or NaN. -/
def jsOrNum (a b : Option JsNum) : Option JsNum :=
  match a with
  | some v => if v.truthy then some v else b
  | none => b

/-- JavaScript `a || dflt` on a possibly-undefined string: the empty string is
falsy. -/
def jsOrStr (a : Option String) (dflt : String) : String :=
  match a with
  | some s => if s ≠ "" then s else dflt
  | none => dflt

/-- The POI object built by `transformElementToPOI`; `category` may be
undefined when the element lacks an amenity tag. -/
structure RawPOI where
  id : String
  name : String
  category : Option String
  lat : Option JsNum
  lng : Option JsNum
  tags : Option OsmTags
  provider : String
deriving DecidableEq, Repr

/-- `transformElementToPOI` (overpassProvider.js:36-45). -/
def transformElementToPOI (e : OverpassElement) : RawPOI :=
  { id := "overpass_" ++ toString e.id,
    name := jsOrStr (e.tags.bind (fun t => t.name)) "Unnamed",
    category := e.tags.bind (fun t => t.amenity),
    lat := jsOrNum e.lat e.centerLat,
    lng := jsOrNum e.lon e.centerLon,
    tags := e.tags,
    provider := "overpass" }

/-- JavaScript truthiness of a possibly-undefined number, as used by the
coordinate-presence filter `poi.lat && poi.lng`. -/
def optTruthy : Option JsNum → Bool
  | some v => v.truthy
  | none => false

/-- The response-processing tail of `overpassProvider.getPOIs`
(overpassProvider.js:69-71): maps the returned elements to POIs and keeps
those whose `lat` and `lng` are truthy. -/
def getPOIsFromElements (elements : List OverpassElement) : List RawPOI :=
  (elements.map transformElementToPOI).filter (fun p => optTruthy p.lat && optTruthy p.lng)

/-- The HTTP responses the POST /api/pois handler can send: the cached-hit
JSON (`cached: true`), the fetched JSON (`cached: false`), or the status-500
error JSON from the catch block. -/
inductive ApiResponse where
  | okCached (pois : List PoiRow) (category : String) (count : Nat)
  | okFetched (pois : List POI) (category : String) (count : Nat)
  | serverError (msg : String)
deriving DecidableEq, Repr

/-- The outcome of one POST /api/pois request: the response sent, the store
state after the request (including any background refill), how many times
`getPOIs` was invoked, and whether the `poi_cache` SELECT was executed. -/
structure HandlerResult where
  resp : ApiResponse
  store : Store
  providerCalls : Nat
  storeQueried : Bool
deriving DecidableEq, Repr

/-- The `setImmediate` background block of the cached-hit branch
(server.js:72-86): computes the uncached area, fetches it when non-null,
caches and broadcasts when POIs were found; every throw in the block is
caught and only logged.  Returns the resulting store and the number of
`getPOIs` calls made. -/
def backgroundRefill (now : Nat) (eng : SpatialEngine)
    (provider : Geo → Except String (List POI)) (db : Store) (polygon : Geo)
    (category : String) : Store × Nat :=
  match getUncachedArea eng polygon category with
  | .error _ => (db, 0)
  | .ok none => (db, 0)
  | .ok (some area) =>
    match provider area with
    | .error _ => (db, 1)
    | .ok newPOIs =>
      if newPOIs.length > 0 then (cachePOIs db area category newPOIs now, 1)
      else (db, 1)

/-- The POST /api/pois handler (server.js:57-106).  `getCachedPOIs` runs
first; a throw there (unknown category) reaches the catch block, which sends
the 500 error.  With at least one cached row the cached-hit JSON is sent
immediately and the background refill runs afterwards; with none, `getPOIs`
is called synchronously on the whole polygon, its failure reaches the catch
block without any write, and its success is cached with `cachePOIs` and then
answered with `cached: false`. -/
def handlePOIs (within : JsNum → JsNum → String → Bool) (now : Nat)
    (eng : SpatialEngine) (provider : Geo → Except String (List POI)) (db : Store)
    (polygon : Geo) (category : String) : HandlerResult :=
  match getCachedPOIs within now db polygon category with
  | .error _ => ⟨.serverError "Failed to fetch POIs", db, 0, false⟩
  | .ok cached =>
    if cached.length > 0 then
      let bg := backgroundRefill now eng provider db polygon category
      ⟨.okCached cached category cached.length, bg.1, bg.2, true⟩
    else
      match provider polygon with
      | .error _ => ⟨.serverError "Failed to fetch POIs", db, 1, true⟩
      | .ok pois =>
        ⟨.okFetched pois category pois.length, cachePOIs db polygon category pois now, 1, true⟩

/-- A point of the plane, for the set-level semantics of the SpatiaLite
operations. -/
abbrev Point := Rat × Rat

/-- The `cache_coverage` rows the getUncachedArea SELECT matches on category
and freshness (cacheService.js:74-78), before the spatial intersection
filter. -/
def relevantCoverage (db : Store) (category : String) (now : Nat) : List CovRow :=
  db.coverage.filter (fun r => r.category == category && freshAt r.cached_at now)

/-- The set-level reading of the remainder `getUncachedArea` computes, under a
denotation `denote` of stored coverage geometries and `denoteGeo` of wire
polygons: the points of the polygon not contained in any fresh, matching,
intersecting coverage geometry.  `ST_Intersects` is nonempty set
intersection, `ST_Union` is set union and `ST_Difference` is set difference,
so the SQL pipeline of lines 71-118 denotes exactly this set. -/
def uncoveredSem (denote : String → Set Point) (denoteGeo : Geo → Set Point)
    (db : Store) (polygon : Geo) (category : String) (now : Nat) : Set Point :=
  {p | p ∈ denoteGeo polygon ∧
    ¬ ∃ r ∈ relevantCoverage db category now,
      (denote r.polygon_geom ∩ denoteGeo polygon).Nonempty ∧ p ∈ denote r.polygon_geom}

/-- A concrete wire polygon: the unit-triangle ring closed back to its start. -/
def squareGeo : Geo :=
  ⟨[⟨.int 0, .int 0⟩, ⟨.int 1, .int 0⟩, ⟨.int 1, .int 1⟩, ⟨.int 0, .int 0⟩]⟩

/-- A concrete provider POI. -/
def poiSample : POI := ⟨"overpass_1", "Cafe X", "cafe", .int 10, .int 20, "\x7b\x7d"⟩

/-- C1: the claim says upserting is idempotent, leaving exactly one stored
record per osm_id.  The operative `poi_cache` schema has no UNIQUE constraint
on `osm_id` and the insert never supplies `id`, so `INSERT OR REPLACE` never
replaces: caching the same POI (osm_id `overpass_1`) twice leaves two rows
with that osm_id, the first still carrying its old timestamp.  This theorem
evaluates the embedded code at that failing input. -/
theorem cachePOIs_reinsert_duplicates_rows :
    ((cachePOIs (cachePOIs emptyStore squareGeo "restaurants" [poiSample] 0)
        squareGeo "restaurants" [poiSample] 5).pois.filter
      (fun r => r.osm_id == "overpass_1")).length = 2 ∧
    ((cachePOIs (cachePOIs emptyStore squareGeo "restaurants" [poiSample] 0)
        squareGeo "restaurants" [poiSample] 5).pois.map
      (fun r => r.updated_at)) = [0, 5] := by
  decide

/-- C2 counterexample: at a concrete polygon and category, the `polygon_hash`
carried by the published update event is not the fingerprint `hashPolygon`
computes for that pair — the event uses SHA-256 over the polygon JSON alone,
`hashPolygon` uses MD5 over the polygon JSON plus the category, and MD5 and
SHA-256 hex digests cannot even coincide in length. -/
theorem broadcast_fingerprint_ne_hashPolygon_at_input :
    (mkUpdateData "restaurants" [poiSample] squareGeo 1000).polygon_hash ≠
      hashPolygon squareGeo "restaurants" := by
  decide

/-- C2 amended: the fingerprint attached to a published update event is the
SHA-256 digest of the JSON-serialized source polygon alone — the category is
not part of the preimage — and it therefore never equals the MD5-based
fingerprint `hashPolygon` computes for `(polygon, category)`. -/
theorem broadcast_fingerprint_sha256_polygon_only
    (category : String) (newPOIs : List POI) (polygon : Geo) (now : Nat) :
    (mkUpdateData category newPOIs polygon now).polygon_hash =
      ⟨.sha256, jsonStringifyPolygon polygon⟩ ∧
    (mkUpdateData category newPOIs polygon now).polygon_hash ≠
      hashPolygon polygon category := by
  refine ⟨rfl, ?_⟩
  simp [mkUpdateData, hashPolygon]

/-- An Overpass node lying exactly on the equator: latitude 0, longitude 5,
both coordinate fields present, with a name and an amenity tag. -/
def equatorCafe : OverpassElement :=
  ⟨42, some ⟨some "Equator Cafe", some "cafe"⟩, some (.int 0), some (.int 5), none, none⟩

/-- C9: a provider entity with present, valid coordinates on the equator
(latitude exactly 0) is excluded from the list `getPOIs` returns, because the
coordinate-presence filter `poi.lat && poi.lng` treats the number 0 as
missing. -/
theorem getPOIs_drops_zero_coordinate_entity :
    equatorCafe.lat = some (JsNum.int 0) ∧
    equatorCafe.lon = some (JsNum.int 5) ∧
    ([equatorCafe].map transformElementToPOI).length = 1 ∧
    getPOIsFromElements [equatorCafe] = [] := by
  decide

/-- An engine whose overlapping-coverage SELECT throws. -/
def engRaise : SpatialEngine :=
  ⟨true, fun _ _ => .error "SQL logic error", fun _ => .ok none, fun _ _ => .ok none⟩

/-- An engine with one overlapping coverage geometry whose difference query
returns a (non-empty) LINESTRING remainder. -/
def engLinestring : SpatialEngine :=
  ⟨true, fun _ _ => .ok ["covA"], fun _ => .ok none,
    fun _ _ => .ok (some "LINESTRING(0 0, 1 1)")⟩

/-- C3 counterexample: two concrete degraded runs contradict the claim.  With
`engRaise` the overlapping-coverage query fails and `getUncachedArea` raises
to the caller (the SELECT sits before the try block).  With `engLinestring`
every operation succeeds but the difference is a non-empty LINESTRING, whose
WKT does not match the POLYGON regex, so `getUncachedArea` returns null —
falsely reporting the polygon as fully covered instead of returning the whole
polygon. -/
theorem getUncachedArea_degraded_failure_modes_at_input :
    getUncachedArea engRaise squareGeo "restaurants" = .error "SQL logic error" ∧
    engLinestring.difference (polygonToWKT squareGeo) (some "covA") =
      .ok (some "LINESTRING(0 0, 1 1)") ∧
    getUncachedArea engLinestring squareGeo "restaurants" = .ok none := by
  refine ⟨rfl, rfl, ?_⟩
  rfl

/-- C3 amended: restricted to runs where the overlapping-coverage SELECT
itself succeeds, `getUncachedArea` never raises; it returns the entire input
polygon when the spatial engine is unavailable, when no fresh coverage
overlaps, and when the union or difference computation inside the try block
fails.  (A failure of the overlapping-coverage SELECT propagates to the
caller, and a successful non-POLYGON difference is parsed to null — the
counterexample above.) -/
theorem getUncachedArea_conservative_when_query_ok
    (eng : SpatialEngine) (polygon : Geo) (category : String) (rows : List String)
    (hq : eng.queryCoverage category (polygonToWKT polygon) = .ok rows) :
    (∃ o, getUncachedArea eng polygon category = .ok o) ∧
    (eng.spatialiteEnabled = false →
      getUncachedArea eng polygon category = .ok (some polygon)) ∧
    (rows = [] → getUncachedArea eng polygon category = .ok (some polygon)) ∧
    (∀ msg, rows ≠ [] →
      tryUnionDiff eng (polygonToWKT polygon) rows = .error msg →
      getUncachedArea eng polygon category = .ok (some polygon)) := by
  by_cases hs : eng.spatialiteEnabled = false
  · refine ⟨⟨some polygon, ?_⟩, fun _ => ?_, fun _ => ?_, fun _ _ _ => ?_⟩ <;>
      simp [getUncachedArea, hs]
  · have hs' : eng.spatialiteEnabled = true := by
      revert hs; cases eng.spatialiteEnabled <;> simp
    refine ⟨?_, fun h => absurd h hs, fun hr => ?_, fun msg hne ht => ?_⟩
    · by_cases hr : rows = []
      · exact ⟨some polygon, by simp [getUncachedArea, hs', hq, hr]⟩
      · cases ht : tryUnionDiff eng (polygonToWKT polygon) rows with
        | error e =>
          exact ⟨some polygon,
            by simp [getUncachedArea, hs', hq, List.isEmpty_iff, hr, ht]⟩
        | ok uncached =>
          cases uncached with
          | none =>
            exact ⟨none, by simp [getUncachedArea, hs', hq, List.isEmpty_iff, hr, ht]⟩
          | some s =>
            by_cases hcond : s ≠ "" ∧ s ≠ "GEOMETRYCOLLECTION EMPTY"
            · exact ⟨wktToGeoJSON s,
                by simp [getUncachedArea, hs', hq, List.isEmpty_iff, hr, ht, hcond]⟩
            · exact ⟨none,
                by simp [getUncachedArea, hs', hq, List.isEmpty_iff, hr, ht, hcond]⟩
    · simp [getUncachedArea, hs', hq, hr]
    · simp [getUncachedArea, hs', hq, List.isEmpty_iff, hne, ht]

/-- An engine that finds no overlapping coverage. -/
def engOkEmpty : SpatialEngine :=
  ⟨true, fun _ _ => .ok [], fun _ => .ok none, fun _ _ => .ok none⟩

/-- Witness for the amended C3 theorem at a concrete engine, polygon and
category. -/
theorem getUncachedArea_conservative_witness :
    getUncachedArea engOkEmpty squareGeo "restaurants" = .ok (some squareGeo) :=
  (getUncachedArea_conservative_when_query_ok engOkEmpty squareGeo "restaurants" []
    rfl).2.2.1 rfl

/-- The registry invariant: every category key present in the connection
registry maps to a non-empty client map. -/
def RegWF (reg : Registry) : Prop := ∀ e ∈ reg, e.2 ≠ []

/-- `clientSet` never produces an empty client map from a non-empty one, and
the append case is non-empty outright. -/
theorem clientSet_ne_nil (m : List (String × Nat)) (clientId : String) (res : Nat)
    (hm : m ≠ []) : clientSet m clientId res ≠ [] := by
  unfold clientSet
  split
  · simpa using hm
  · simp

/-- A successful `regLookup` exhibits a member of the registry. -/
theorem regLookup_mem (reg : Registry) (category : String)
    (m : List (String × Nat)) (h : regLookup reg category = some m) :
    (category, m) ∈ reg := by
  unfold regLookup at h
  cases hf : reg.find? (fun e => e.1 = category) with
  | none => simp [hf] at h
  | some e =>
    simp [hf] at h
    have hmem := List.mem_of_find?_eq_some hf
    have hp := List.find?_some hf
    have : e.1 = category := by simpa using hp
    have : e = (category, m) := by
      cases e
      simp_all
    rw [this] at hmem
    exact hmem

/-- `addConnection` preserves the non-empty-map invariant. -/
theorem regWF_addConnection (reg : Registry) (category clientId : String) (res : Nat)
    (h : RegWF reg) : RegWF (addConnection reg category clientId res) := by
  unfold addConnection
  cases hl : regLookup reg category with
  | none =>
    intro e he
    rcases List.mem_append.mp he with hin | hin
    · exact h e hin
    · simp at hin
      simp [hin]
  | some m =>
    intro e he
    unfold regSet at he
    rcases List.mem_map.mp he with ⟨e', he', heq⟩
    by_cases hc : e'.1 = category
    · have hm : m ≠ [] := h (category, m) (regLookup_mem reg category m hl)
      rw [if_pos hc] at heq
      rw [← heq]
      exact clientSet_ne_nil m clientId res hm
    · rw [if_neg hc] at heq
      rw [← heq]
      exact h e' he'

/-- `removeConnection` preserves the non-empty-map invariant. -/
theorem regWF_removeConnection (reg : Registry) (category clientId : String)
    (h : RegWF reg) : RegWF (removeConnection reg category clientId) := by
  unfold removeConnection
  cases hl : regLookup reg category with
  | none => exact h
  | some m =>
    by_cases he : (m.filter (fun e => e.1 ≠ clientId)).isEmpty
    · simp only [he, if_true]
      intro e hemem
      exact h e (List.mem_of_mem_filter hemem)
    · simp only [he, if_false]
      intro e hemem
      unfold regSet at hemem
      rcases List.mem_map.mp hemem with ⟨e', he', heq⟩
      by_cases hc : e'.1 = category
      · rw [if_pos hc] at heq
        rw [← heq]
        simpa [List.isEmpty_iff] using he
      · rw [if_neg hc] at heq
        rw [← heq]
        exact h e' he'

/-- The per-client teardown fold of `broadcastPOIUpdates` preserves the
invariant. -/
theorem regWF_broadcast_fold (writeOk : Nat → Bool) (category : String)
    (clients : List (String × Nat)) (reg : Registry) (h : RegWF reg) :
    RegWF (clients.foldl (fun r c =>
      if writeOk c.2 then r else removeConnection r category c.1) reg) := by
  induction clients generalizing reg with
  | nil => exact h
  | cons c cs ih =>
    simp only [List.foldl_cons]
    by_cases hw : writeOk c.2
    · rw [if_pos hw]
      exact ih reg h
    · rw [if_neg hw]
      exact ih _ (regWF_removeConnection reg category c.1 h)

/-- C10: the connection registry keeps every present category key mapped to a
non-empty set of live subscribers: `addConnection`, `removeConnection` and the
teardown performed by `broadcastPOIUpdates` for failed writes each preserve
the invariant, and removing a category's last subscriber deletes the
category's entry. -/
theorem registry_nonempty_invariant_preserved
    (reg : Registry) (category clientId : String) (res : Nat)
    (writeOk : Nat → Bool) (newPOIs : List POI) (h : RegWF reg) :
    RegWF (addConnection reg category clientId res) ∧
    RegWF (removeConnection reg category clientId) ∧
    RegWF (broadcastPOIUpdates writeOk reg category newPOIs) ∧
    (regLookup reg category = some [(clientId, res)] →
      regLookup (removeConnection reg category clientId) category = none) := by
  refine ⟨regWF_addConnection reg category clientId res h,
    regWF_removeConnection reg category clientId h, ?_, ?_⟩
  · unfold broadcastPOIUpdates
    cases hl : regLookup reg category with
    | none => exact h
    | some clients =>
      dsimp only
      by_cases hn : newPOIs.length = 0
      · rw [if_pos hn]
        exact h
      · rw [if_neg hn]
        exact regWF_broadcast_fold writeOk category clients reg h
  · intro hl
    unfold removeConnection
    rw [hl]
    have : ([((clientId : String), res)].filter (fun e => e.1 ≠ clientId)).isEmpty := by
      simp
    simp only [this, if_true]
    unfold regLookup
    rw [List.find?_eq_none.mpr]
    · rfl
    · intro e hemem
      have := List.of_mem_filter hemem
      simpa using this

/-- Witness for the C10 invariant theorem at a concrete one-subscriber
registry: adding, removing and broadcasting (with a failing write) all keep
the invariant, and removing the last subscriber deletes the category key. -/
theorem registry_nonempty_invariant_witness :
    RegWF (addConnection [("restaurants", [("c1", 0)])] "restaurants" "c1" 0) ∧
    RegWF (removeConnection [("restaurants", [("c1", 0)])] "restaurants" "c1") ∧
    RegWF (broadcastPOIUpdates (fun _ => false) [("restaurants", [("c1", 0)])]
      "restaurants" [poiSample]) ∧
    (regLookup [("restaurants", [("c1", 0)])] "restaurants" = some [("c1", 0)] →
      regLookup (removeConnection [("restaurants", [("c1", 0)])] "restaurants" "c1")
        "restaurants" = none) :=
  registry_nonempty_invariant_preserved [("restaurants", [("c1", 0)])] "restaurants"
    "c1" 0 (fun _ => false) [poiSample] (by unfold RegWF; decide)

/-- Fresh, matching coverage rows of the pre-state stay fresh and matching in
the appended state. -/
theorem relevantCoverage_append (db : Store) (wkt cat : String) (cnt now : Nat)
    (qcat : String) (qnow : Nat) (r : CovRow)
    (h : r ∈ relevantCoverage db qcat qnow) :
    r ∈ relevantCoverage (applyOp now db (.insertCoverage wkt cat cnt)) qcat qnow := by
  unfold relevantCoverage at h ⊢
  rcases List.mem_filter.mp h with ⟨hmem, hp⟩
  exact List.mem_filter.mpr ⟨List.mem_append_left _ hmem, hp⟩

/-- C7: coverage accumulation is append-only and monotone.  `insertCoverage`
(the write `recordCoverage` performs inside `cachePOIs`) appends exactly one
new `cache_coverage` row, touching neither existing coverage rows nor the POI
table; and under any set-level denotation of the stored geometries, appending
a coverage row can only shrink the uncovered remainder of any fixed polygon —
in particular a polygon whose remainder was empty (fully covered) stays
fully covered. -/
theorem recordCoverage_append_only_monotone
    (denote : String → Set Point) (denoteGeo : Geo → Set Point) (db : Store)
    (wkt cat : String) (cnt now : Nat) (polygon : Geo) (qcat : String) (qnow : Nat) :
    (applyOp now db (.insertCoverage wkt cat cnt)).coverage =
      db.coverage ++ [⟨db.nextCovId, wkt, cat, cnt, now⟩] ∧
    (applyOp now db (.insertCoverage wkt cat cnt)).pois = db.pois ∧
    uncoveredSem denote denoteGeo (applyOp now db (.insertCoverage wkt cat cnt))
        polygon qcat qnow ⊆
      uncoveredSem denote denoteGeo db polygon qcat qnow ∧
    (uncoveredSem denote denoteGeo db polygon qcat qnow = ∅ →
      uncoveredSem denote denoteGeo (applyOp now db (.insertCoverage wkt cat cnt))
        polygon qcat qnow = ∅) := by
  have hsub : uncoveredSem denote denoteGeo (applyOp now db (.insertCoverage wkt cat cnt))
      polygon qcat qnow ⊆ uncoveredSem denote denoteGeo db polygon qcat qnow := by
    intro p hp
    rcases hp with ⟨hin, hnc⟩
    refine ⟨hin, fun hex => hnc ?_⟩
    rcases hex with ⟨r, hr, hcond⟩
    exact ⟨r, relevantCoverage_append db wkt cat cnt now qcat qnow r hr, hcond⟩
  refine ⟨rfl, rfl, hsub, fun hemp => ?_⟩
  rw [hemp] at hsub
  exact Set.subset_empty_iff.mp hsub

/-- Witness for the C7 theorem at a concrete store, denotation and polygon:
after recording coverage on the empty store, the remainder of a polygon that
was fully covered before stays empty. -/
theorem recordCoverage_monotone_witness :
    uncoveredSem (fun _ => Set.univ) (fun _ => (∅ : Set Point))
      (applyOp 0 emptyStore
        (.insertCoverage "POLYGON((0 0, 1 0, 1 1, 0 0))" "restaurants" 0))
      squareGeo "restaurants" 0 = ∅ := by
  have hempty : uncoveredSem (fun _ => Set.univ) (fun _ => (∅ : Set Point))
      emptyStore squareGeo "restaurants" 0 = ∅ := by
    ext p
    simp [uncoveredSem]
  exact (recordCoverage_append_only_monotone (fun _ => Set.univ)
    (fun _ => (∅ : Set Point)) emptyStore "POLYGON((0 0, 1 0, 1 1, 0 0))"
    "restaurants" 0 0 squareGeo "restaurants" 0).2.2.2 hempty

/-- C4: on the cache-miss path a provider failure reaches the catch block
before any write: the client gets the explicit 500 fetch-failure response
(a different constructor from an empty success), and the store — POI rows and
coverage rows alike — is exactly its pre-request state. -/
theorem cacheMiss_provider_failure_no_write
    (within : JsNum → JsNum → String → Bool) (now : Nat) (eng : SpatialEngine)
    (provider : Geo → Except String (List POI)) (db : Store) (polygon : Geo)
    (category msg : String)
    (hc : getCachedPOIs within now db polygon category = .ok [])
    (hp : provider polygon = .error msg) :
    (handlePOIs within now eng provider db polygon category).resp =
      .serverError "Failed to fetch POIs" ∧
    (handlePOIs within now eng provider db polygon category).store = db ∧
    ∀ (pois : List POI) (count : Nat),
      (handlePOIs within now eng provider db polygon category).resp ≠
        .okFetched pois category count := by
  have hres : handlePOIs within now eng provider db polygon category =
      ⟨.serverError "Failed to fetch POIs", db, 1, true⟩ := by
    simp [handlePOIs, hc, hp]
  refine ⟨by rw [hres], by rw [hres], fun pois count => by rw [hres]; simp⟩

/-- Witness for the C4 theorem at a concrete empty store and failing
provider. -/
theorem cacheMiss_provider_failure_no_write_witness :
    (handlePOIs (fun _ _ _ => false) 0 engOkEmpty (fun _ => .error "boom")
      emptyStore squareGeo "restaurants").resp =
      .serverError "Failed to fetch POIs" ∧
    (handlePOIs (fun _ _ _ => false) 0 engOkEmpty (fun _ => .error "boom")
      emptyStore squareGeo "restaurants").store = emptyStore ∧
    ∀ (pois : List POI) (count : Nat),
      (handlePOIs (fun _ _ _ => false) 0 engOkEmpty (fun _ => .error "boom")
        emptyStore squareGeo "restaurants").resp ≠
        .okFetched pois "restaurants" count :=
  cacheMiss_provider_failure_no_write (fun _ _ _ => false) 0 engOkEmpty
    (fun _ => .error "boom") emptyStore squareGeo "restaurants" "boom" rfl rfl

/-- The background refill calls the provider at most once per triggering
request. -/
theorem backgroundRefill_calls_le_one (now : Nat) (eng : SpatialEngine)
    (provider : Geo → Except String (List POI)) (db : Store) (polygon : Geo)
    (category : String) :
    (backgroundRefill now eng provider db polygon category).2 ≤ 1 := by
  unfold backgroundRefill
  cases getUncachedArea eng polygon category with
  | error e => simp
  | ok o =>
    cases o with
    | none => simp
    | some area =>
      cases hp : provider area with
      | error e => simp [hp]
      | ok newPOIs =>
        by_cases h : newPOIs.length > 0 <;> simp [hp, h]

/-- C6: when the cache query returns at least one POI, the handler responds
with exactly those cached POIs and `cached: true`; whatever the background
reconciliation does — any spatial-engine behaviour, any provider outcome,
success or failure — the response is that same value (it is computed from the
cached rows alone and sent before the background block runs), the background
failure is swallowed rather than turned into an error response, and the
provider is invoked at most once for the triggering request. -/
theorem cachedHit_response_fixed_and_background_swallowed
    (within : JsNum → JsNum → String → Bool) (now : Nat) (db : Store)
    (polygon : Geo) (category : String) (cached : List PoiRow)
    (hc : getCachedPOIs within now db polygon category = .ok cached)
    (hne : cached ≠ []) :
    ∀ (eng : SpatialEngine) (provider : Geo → Except String (List POI)),
      (handlePOIs within now eng provider db polygon category).resp =
        .okCached cached category cached.length ∧
      (handlePOIs within now eng provider db polygon category).providerCalls ≤ 1 := by
  intro eng provider
  have hlen : cached.length > 0 := List.length_pos.mpr hne
  have hres : handlePOIs within now eng provider db polygon category =
      ⟨.okCached cached category cached.length,
        (backgroundRefill now eng provider db polygon category).1,
        (backgroundRefill now eng provider db polygon category).2, true⟩ := by
    simp [handlePOIs, hc, hlen]
  refine ⟨by rw [hres], ?_⟩
  rw [hres]
  exact backgroundRefill_calls_le_one now eng provider db polygon category

/-- A store holding one fresh cached cafe row. -/
def storeOneCafe : Store :=
  ⟨[⟨0, "overpass_1", "Cafe X", "cafe", .int 10, .int 20, "t", .int 20, .int 10, 0⟩],
    [], 1, 0⟩

/-- Witness for the C6 theorem at a concrete store with one matching cached
row, a failing background engine and a failing provider. -/
theorem cachedHit_response_fixed_witness :
    (handlePOIs (fun _ _ _ => true) 0 engRaise (fun _ => .error "down")
      storeOneCafe squareGeo "restaurants").resp =
      .okCached
        [⟨0, "overpass_1", "Cafe X", "cafe", .int 10, .int 20, "t", .int 20, .int 10, 0⟩]
        "restaurants" 1 ∧
    (handlePOIs (fun _ _ _ => true) 0 engRaise (fun _ => .error "down")
      storeOneCafe squareGeo "restaurants").providerCalls ≤ 1 :=
  cachedHit_response_fixed_and_background_swallowed (fun _ _ _ => true) 0 storeOneCafe
    squareGeo "restaurants"
    [⟨0, "overpass_1", "Cafe X", "cafe", .int 10, .int 20, "t", .int 20, .int 10, 0⟩]
    rfl (by decide) engRaise (fun _ => .error "down")

/-- A degenerate wire polygon: three points, not closed. -/
def openTriangle : Geo := ⟨[⟨.int 0, .int 0⟩, ⟨.int 1, .int 0⟩, ⟨.int 0, .int 1⟩]⟩

/-- C8 counterexample: at a concrete degenerate input polygon — a 3-point
ring whose first and last points differ — the POI query path does not reject
with an InvalidGeometry error (no such rejection exists anywhere in the
handler): the ring is converted straight to WKT, the store is queried, the
provider is called, and a coverage row for the degenerate polygon is even
written.  The request completes as a normal success. -/
theorem degenerate_polygon_not_rejected_at_input :
    openTriangle.ring.length = 3 ∧
    openTriangle.ring.head? ≠ openTriangle.ring.getLast? ∧
    (handlePOIs (fun _ _ _ => false) 0 engOkEmpty (fun _ => .ok []) emptyStore
      openTriangle "restaurants").resp = .okFetched [] "restaurants" 0 ∧
    (handlePOIs (fun _ _ _ => false) 0 engOkEmpty (fun _ => .ok []) emptyStore
      openTriangle "restaurants").storeQueried = true ∧
    (handlePOIs (fun _ _ _ => false) 0 engOkEmpty (fun _ => .ok []) emptyStore
      openTriangle "restaurants").store.coverage =
      [⟨0, "POLYGON((0 0, 1 0, 0 1))", "restaurants", 0, 0⟩] := by
  decide

/-- C8 amended: the POI query path performs no geometry validation at all.
For every polygon — degenerate rings included — the handler reaches the
store query exactly when the category is known; the polygon's shape is never
inspected before store access, and no InvalidGeometry rejection exists. -/
theorem poi_query_no_geometry_validation
    (within : JsNum → JsNum → String → Bool) (now : Nat) (eng : SpatialEngine)
    (provider : Geo → Except String (List POI)) (db : Store) (polygon : Geo)
    (category : String) :
    (handlePOIs within now eng provider db polygon category).storeQueried =
      (CATEGORIES category).isSome := by
  cases h : CATEGORIES category with
  | none => simp [handlePOIs, getCachedPOIs, h]
  | some l =>
    simp only [handlePOIs, getCachedPOIs, h, Option.isSome_some]
    split
    · rfl
    · cases provider polygon <;> rfl

/-- Store well-formedness: every existing rowid is below its table's next
rowid, as SQLite maintains for auto-assigned INTEGER PRIMARY KEYs. -/
def StoreWF (db : Store) : Prop :=
  (∀ r ∈ db.coverage, r.id < db.nextCovId) ∧ ∀ q ∈ db.pois, q.id < db.nextPoiId

/-- The POI-insert prefix of the transaction touches neither the coverage
table nor its rowid counter. -/
theorem foldInsertPois_coverage (now : Nat) (ps : List POI) (db : Store) :
    ((ps.map TxnOp.insertPoi).foldl (applyOp now) db).coverage = db.coverage ∧
    ((ps.map TxnOp.insertPoi).foldl (applyOp now) db).nextCovId = db.nextCovId := by
  induction ps generalizing db with
  | nil => exact ⟨rfl, rfl⟩
  | cons p ps ih =>
    simp only [List.map_cons, List.foldl_cons]
    exact ih (applyOp now db (.insertPoi p))

/-- Rows present before the POI-insert prefix runs are still present after
it. -/
theorem mem_pois_foldInsert (now : Nat) (ps : List POI) (db : Store) (q : PoiRow)
    (h : q ∈ db.pois) : q ∈ ((ps.map TxnOp.insertPoi).foldl (applyOp now) db).pois := by
  induction ps generalizing db with
  | nil => exact h
  | cons p ps ih =>
    simp only [List.map_cons, List.foldl_cons]
    exact ih (applyOp now db (.insertPoi p)) (List.mem_append_left _ h)

/-- After the POI-insert prefix, every passed POI has a committed row carrying
its provider-qualified id and the transaction timestamp. -/
theorem foldInsertPois_contains (now : Nat) (ps : List POI) (db : Store) :
    ∀ p ∈ ps, ∃ q ∈ ((ps.map TxnOp.insertPoi).foldl (applyOp now) db).pois,
      q.osm_id = p.id ∧ q.updated_at = now := by
  induction ps generalizing db with
  | nil => intro p hp; cases hp
  | cons x xs ih =>
    intro p hp
    simp only [List.map_cons, List.foldl_cons]
    rcases List.mem_cons.mp hp with h | h
    · subst h
      refine ⟨⟨db.nextPoiId, p.id, p.name, p.category, p.lat, p.lng, p.tags,
        p.lng, p.lat, now⟩, ?_, rfl, rfl⟩
      exact mem_pois_foldInsert now xs (applyOp now db (.insertPoi p)) _
        (List.mem_append_right _ (List.mem_singleton_self _))
    · exact ih (applyOp now db (.insertPoi x)) p h

/-- C5: `cachePOIs` commits the POI upserts and the matching coverage record
in one transaction.  In every state observable outside the transaction —
the pre-state or the committed post-state, never a prefix — the new coverage
record (the row with the fresh coverage rowid, carrying the queried polygon's
WKT, the category, the POI count and the transaction timestamp) is present
exactly on the side where all passed POIs are committed: when it is present,
every passed POI has a committed row, and when any new POI row is present,
the coverage record is present too. -/
theorem cachePOIs_transaction_atomic
    (db : Store) (polygon : Geo) (category : String) (pois : List POI) (now : Nat)
    (hwf : StoreWF db) :
    ∀ s ∈ txnObservable db (cachePOIsOps polygon category pois) now,
      ((∃ r ∈ s.coverage, r.id = db.nextCovId) →
        (∃ r ∈ s.coverage, r.id = db.nextCovId ∧ r.polygon_geom = polygonToWKT polygon ∧
          r.category = category ∧ r.poi_count = pois.length ∧ r.cached_at = now) ∧
        ∀ p ∈ pois, ∃ q ∈ s.pois, q.osm_id = p.id ∧ q.updated_at = now) ∧
      ((∃ q ∈ s.pois, db.nextPoiId ≤ q.id) →
        ∃ r ∈ s.coverage, r.id = db.nextCovId ∧ r.polygon_geom = polygonToWKT polygon ∧
          r.category = category) := by
  intro s hs
  simp only [txnObservable, List.mem_cons, List.not_mem_nil, or_false] at hs
  rcases hs with hs | hs
  · subst hs
    constructor
    · rintro ⟨r, hr, hid⟩
      exact absurd hid (Nat.ne_of_lt (hwf.1 r hr))
    · rintro ⟨q, hq, hle⟩
      exact absurd hle (Nat.not_le_of_lt (hwf.2 q hq))
  · subst hs
    have hsplit : (cachePOIsOps polygon category pois).foldl (applyOp now) db =
        applyOp now ((pois.map TxnOp.insertPoi).foldl (applyOp now) db)
          (.insertCoverage (polygonToWKT polygon) category pois.length) := by
      unfold cachePOIsOps
      rw [List.foldl_append]
      rfl
    rw [hsplit]
    set mid := (pois.map TxnOp.insertPoi).foldl (applyOp now) db with hmid
    have hcovId : mid.nextCovId = db.nextCovId := (foldInsertPois_coverage now pois db).2
    have hrowmem : (⟨db.nextCovId, polygonToWKT polygon, category, pois.length, now⟩ :
        CovRow) ∈ (applyOp now mid
          (.insertCoverage (polygonToWKT polygon) category pois.length)).coverage := by
      show _ ∈ mid.coverage ++ [(⟨mid.nextCovId, polygonToWKT polygon, category,
        pois.length, now⟩ : CovRow)]
      rw [hcovId]
      exact List.mem_append_right _ (List.mem_singleton_self _)
    constructor
    · intro _
      refine ⟨⟨_, hrowmem, rfl, rfl, rfl, rfl, rfl⟩, ?_⟩
      intro p hp
      rcases foldInsertPois_contains now pois db p hp with ⟨q, hq, hq1, hq2⟩
      exact ⟨q, hq, hq1, hq2⟩
    · intro _
      exact ⟨_, hrowmem, rfl, rfl, rfl⟩

/-- Witness for the C5 theorem: the committed post-state of a concrete
transaction over the empty store. -/
theorem cachePOIs_transaction_atomic_witness :
    ((∃ r ∈ (cachePOIs emptyStore squareGeo "restaurants" [poiSample] 0).coverage,
        r.id = emptyStore.nextCovId) →
      (∃ r ∈ (cachePOIs emptyStore squareGeo "restaurants" [poiSample] 0).coverage,
        r.id = emptyStore.nextCovId ∧ r.polygon_geom = polygonToWKT squareGeo ∧
        r.category = "restaurants" ∧ r.poi_count = [poiSample].length ∧ r.cached_at = 0) ∧
      ∀ p ∈ [poiSample],
        ∃ q ∈ (cachePOIs emptyStore squareGeo "restaurants" [poiSample] 0).pois,
          q.osm_id = p.id ∧ q.updated_at = 0) ∧
    ((∃ q ∈ (cachePOIs emptyStore squareGeo "restaurants" [poiSample] 0).pois,
        emptyStore.nextPoiId ≤ q.id) →
      ∃ r ∈ (cachePOIs emptyStore squareGeo "restaurants" [poiSample] 0).coverage,
        r.id = emptyStore.nextCovId ∧ r.polygon_geom = polygonToWKT squareGeo ∧
        r.category = "restaurants") :=
  cachePOIs_transaction_atomic emptyStore squareGeo "restaurants" [poiSample] 0
    (by constructor <;> intro x hx <;> simp [emptyStore] at hx)
    (cachePOIs emptyStore squareGeo "restaurants" [poiSample] 0)
    (by simp [txnObservable, cachePOIs])
